import Mathlib

/-!
# Verification of the gabarit excerpts

Shallow embedding of two source files of the `gabarit` project template:

* `template_num/.../models_training/regressors/model_dense_regressor.py`
  (`ModelDenseRegressor`: `_get_model`, `reload_from_standalone`);
* `template_nlp/.../monitoring/model_explainer.py`
  (`Explainer`, `LimeExplainer`: `__init__`, `classifier_fn`,
  `explain_instance`, `explain_instance_as_html`, `explain_instance_as_list`).

Python values carried by configuration files and untyped attributes are
embedded as the inductive `Value` (a small JSON-like universe, with numbers
as rationals).  File-system effects are made explicit: functions that touch
the disk take a `FS` argument and return a trace of `FileOp`s.  Calls into
the third-party libraries (Keras, LIME) are recorded symbolically: the
embedding keeps the arguments the code passes, which is what the claims
are about.
-/

/-- A JSON-like universe for Python values held by configuration mappings
and untyped instance attributes.  Numbers are embedded as rationals. -/
inductive Value where
  | null : Value
  | bool : Bool → Value
  | num : ℚ → Value
  | str : String → Value
  | list : List Value → Value
  | dict : List (String × Value) → Value

/-- The Python exceptions raised by the embedded code. -/
inductive PyError where
  | valueError : String → PyError
  | fileNotFoundError : String → PyError
  | typeError : String → PyError
deriving DecidableEq

/-- The state of the disk, as the embedded code observes it: existence of a
path (`os.path.exists`), the parsed JSON object of a configuration file
(`json.load` on an `open(path)`), and the opaque bytes of any other file
(hdf5 weights, pickled pipeline). -/
structure FS where
  fexists : String → Bool
  jsonContents : String → List (String × Value)
  blob : String → Value

/-- File operations performed by `reload_from_standalone`, in order. -/
inductive FileOp where
  | openRead : String → FileOp
  | loadModelKeras : String → FileOp
  | copyFile : String → String → FileOp
deriving DecidableEq

/-- The in-memory Keras model attribute: either not loaded yet, or the
result of `load_model_keras(path, custom_objects=...)` on a file with the
given bytes. -/
inductive ModelObj where
  | notLoaded : ModelObj
  | loadedKeras : Value → Value → ModelObj

/-- The instance attributes of a `ModelDenseRegressor` that the embedded
methods read or write.  The attributes touched by the untyped
`setattr`/`getattr` loop of `reload_from_standalone` are kept at type
`Value`, as Python keeps them untyped. -/
structure RegressorState where
  model_name : String
  model_dir : String
  custom_objects : Value
  nb_fit : Value
  trained : Value
  model_type : Value
  x_col : Value
  y_col : Value
  columns_in : Value
  mandatory_columns : Value
  level_save : Value
  batch_size : Value
  epochs : Value
  validation_split : Value
  patience : Value
  keras_params : Value
  model : ModelObj
  preprocess_pipeline : Option Value

/-- `configs.get(key, default)` on a parsed JSON object. -/
def cfgGet (configs : List (String × Value)) (key : String) (dflt : Value) : Value :=
  (configs.lookup key).getD dflt

/-- The attribute updates of `reload_from_standalone` once the
configuration file has been read: `nb_fit` and `trained` default to `1`
and `True`, the attributes of the explicit list default to the current
instance value (`configs.get(attribute, getattr(self, attribute))`).
`model_name` and `model_dir` are deliberately not set (the source comments
them out). -/
def applyConfigs (self : RegressorState) (configs : List (String × Value)) :
    RegressorState :=
  { self with
    nb_fit := cfgGet configs "nb_fit" (Value.num 1)
    trained := cfgGet configs "trained" (Value.bool true)
    model_type := cfgGet configs "model_type" self.model_type
    x_col := cfgGet configs "x_col" self.x_col
    y_col := cfgGet configs "y_col" self.y_col
    columns_in := cfgGet configs "columns_in" self.columns_in
    mandatory_columns := cfgGet configs "mandatory_columns" self.mandatory_columns
    level_save := cfgGet configs "level_save" self.level_save
    batch_size := cfgGet configs "batch_size" self.batch_size
    epochs := cfgGet configs "epochs" self.epochs
    validation_split := cfgGet configs "validation_split" self.validation_split
    patience := cfgGet configs "patience" self.patience
    keras_params := cfgGet configs "keras_params" self.keras_params }

/-- `os.path.join(a, b)` for a relative second component. -/
def pathJoin (a b : String) : String :=
  if a = "" then b else if a.endsWith "/" then a ++ b else a ++ "/" ++ b

/-- The outcome of a call to `reload_from_standalone`: the instance state
after the call (unchanged when an exception is raised before any
mutation), the exception if one was raised, and the trace of file
operations actually performed. -/
structure ReloadResult where
  state : RegressorState
  error : Option PyError
  ops : List FileOp

/-- Shallow embedding of `ModelDenseRegressor.reload_from_standalone`.
The three keyword arguments arrive as `Option String`
(`kwargs.get(name, None)`); the checks are performed in the source order:
the three `None` checks, then the three `os.path.exists` checks, before
any file is opened.  On success the configuration is read and applied,
the Keras model is loaded from `hdf5_path`, the hdf5 file is copied to
`model_dir/best.hdf5`, and the preprocessing pipeline is unpickled from
`preprocess_pipeline_path`. -/
def reload_from_standalone (self : RegressorState) (fs : FS)
    (configuration_path hdf5_path preprocess_pipeline_path : Option String) :
    ReloadResult :=
  match configuration_path with
  | none =>
    ⟨self, some (PyError.valueError "The argument configuration_path cannot be None"), []⟩
  | some cfgPath =>
    match hdf5_path with
    | none =>
      ⟨self, some (PyError.valueError "The argument hdf5_path cannot be None"), []⟩
    | some h5Path =>
      match preprocess_pipeline_path with
      | none =>
        ⟨self, some (PyError.valueError "The argument preprocess_pipeline_path cannot be None"), []⟩
      | some ppPath =>
        if ¬ fs.fexists cfgPath then
          ⟨self, some (PyError.fileNotFoundError ("The file " ++ cfgPath ++ " does not exist")), []⟩
        else if ¬ fs.fexists h5Path then
          ⟨self, some (PyError.fileNotFoundError ("The file " ++ h5Path ++ " does not exist")), []⟩
        else if ¬ fs.fexists ppPath then
          ⟨self, some (PyError.fileNotFoundError ("The file " ++ ppPath ++ " does not exist")), []⟩
        else
          let configs := fs.jsonContents cfgPath
          let s1 := applyConfigs self configs
          let s2 := { s1 with
            model := ModelObj.loadedKeras (fs.blob h5Path) s1.custom_objects }
          let newHdf5Path := pathJoin s2.model_dir "best.hdf5"
          let s3 := { s2 with preprocess_pipeline := some (fs.blob ppPath) }
          ⟨s3, none,
            [FileOp.openRead cfgPath, FileOp.loadModelKeras h5Path,
             FileOp.copyFile h5Path newHdf5Path, FileOp.openRead ppPath]⟩

/-- One Keras layer of the emitted topology, with the parameters the
source passes to the layer constructor. -/
inductive LayerSpec where
  | input : Nat → LayerSpec
  | dense : Nat → Option String → String → LayerSpec
  | batchNormalization : ℚ → LayerSpec
  | elu : ℚ → LayerSpec
  | dropout : ℚ → LayerSpec
deriving DecidableEq

/-- The network `_get_model` emits: the layer stack in application order
and the compilation recipe (loss, metric names, optimizer settings). -/
structure NetworkSpec where
  layers : List LayerSpec
  lossName : String
  metricNames : List String
  optimizerName : String
  learning_rate : Value
  decay : Value

/-- Shallow embedding of `ModelDenseRegressor._get_model`.  Defined when
`len(self.x_col)` and `'learning_rate' in self.keras_params.keys()` make
sense in Python, i.e. when `x_col` is a list and `keras_params` a dict;
`none` otherwise.  The third metric, the callable
`utils_deep_keras.root_mean_squared_error`, is recorded by name. -/
def getModel (self : RegressorState) : Option NetworkSpec :=
  match self.x_col, self.keras_params with
  | Value.list cols, Value.dict kp =>
    let input_dim := cols.length
    let lr := (kp.lookup "learning_rate").getD (Value.num (1 / 1000))
    let decay := (kp.lookup "decay").getD (Value.num 0)
    some
      { layers :=
          [LayerSpec.input input_dim,
           LayerSpec.dense 64 none "he_uniform",
           LayerSpec.batchNormalization (9 / 10),
           LayerSpec.elu 1,
           LayerSpec.dropout (1 / 5),
           LayerSpec.dense 64 none "he_uniform",
           LayerSpec.batchNormalization (9 / 10),
           LayerSpec.elu 1,
           LayerSpec.dropout (1 / 5),
           LayerSpec.dense 1 none "glorot_uniform"]
        lossName := "mean_squared_error"
        metricNames :=
          ["mean_squared_error", "mean_absolute_error", "root_mean_squared_error"]
        optimizerName := "Adam"
        learning_rate := lr
        decay := decay }
  | _, _ => none

/-- The numeric value of `logging.ERROR` in Python. -/
def loggingERROR : Nat := 40

/-- `self.level_save in ['MEDIUM', 'HIGH']` on the untyped attribute. -/
def levelSaveMediumOrHigh (v : Value) : Bool :=
  match v with
  | Value.str s => s = "MEDIUM" || s = "HIGH"
  | _ => false

/-- The side effects of `_get_model` beside building the network: the
model summary is printed when the effective logger level is below
`logging.ERROR`, and the model is saved as a png when `level_save` is
`'MEDIUM'` or `'HIGH'`. -/
def getModelEffects (self : RegressorState) (loggerLevel : Nat) : List String :=
  (if loggerLevel < loggingERROR then ["summary"] else []) ++
    (if levelSaveMediumOrHigh self.level_save then ["save_model_png"] else [])

/-- A Python attribute value as `getattr` observes it: either a plain
(non-callable) value or a callable.  The callables the explainer needs
map a list of texts to a probability array, abstracted as a `Value`. -/
inductive Attr where
  | pyVal : Value → Attr
  | pyFn : (List String → Value) → Attr

/-- The duck-typed model object handed to `LimeExplainer`: the two
attributes the constructor inspects, `none` when the attribute is
absent. -/
structure DuckModel where
  predict_proba : Option Attr
  list_classes : Option Value

/-- The instance state a successful `LimeExplainer.__init__` produces.
The `LimeTextExplainer(class_names=...)` call is recorded by the class
names it receives. -/
structure LimeState where
  model : DuckModel
  model_conf : List (String × Value)
  class_names : Value
  current_class_or_label_index : Int
  explainerClassNames : Value

/-- Shallow embedding of `LimeExplainer.__init__`.  It checks, in source
order, that `getattr(model, 'predict_proba', None)` is a callable
(raising `TypeError` otherwise) and that
`getattr(model, 'list_classes', None)` is not `None` (absent attribute
and attribute holding `None` are indistinguishable to this `getattr`),
then stores the model and configuration, sets `class_names` from the
model, initialises the current class/label index to `0` and builds the
LIME text explainer over `class_names`. -/
def limeInit (model : DuckModel) (model_conf : List (String × Value)) :
    Except PyError LimeState :=
  match model.predict_proba with
  | some (Attr.pyFn _) =>
    match model.list_classes with
    | none =>
      Except.error (PyError.typeError "The supplied model must have a list_classes attribute")
    | some Value.null =>
      Except.error (PyError.typeError "The supplied model must have a list_classes attribute")
    | some v =>
      Except.ok
        { model := model
          model_conf := model_conf
          class_names := v
          current_class_or_label_index := 0
          explainerClassNames := v }
  | _ =>
    Except.error (PyError.typeError "The supplied model must implement a predict_proba() function")

/-- Modelled from the spec: the preprocessing module
(`{{package_name}}.preprocessing.preprocess`, not part of this excerpt)
exposes `get_preprocessor`, which looks a preprocessing step up by a
string key from configuration; it is modelled as an abstract environment
mapping the looked-up key to a text transformation. -/
structure PreprocessEnv where
  get_preprocessor : Value → (List String → List String)

/-- Shallow embedding of `LimeExplainer.classifier_fn`: selects the key
`model_conf['preprocess_str']` when present and `'no_preprocess'`
otherwise, obtains the preprocessor for it, preprocesses the texts and
returns the model probabilities on the preprocessed texts.  `none` when
the stored model has no callable `predict_proba` (impossible after
`limeInit` succeeds). -/
def classifier_fn (env : PreprocessEnv) (st : LimeState)
    (content_list : List String) : Option Value :=
  let preprocess_str :=
    match st.model_conf.lookup "preprocess_str" with
    | some v => v
    | none => Value.str "no_preprocess"
  let preprocessor := env.get_preprocessor preprocess_str
  let content_prep := preprocessor content_list
  match st.model.predict_proba with
  | some (Attr.pyFn f) => some (f content_prep)
  | _ => none

/-- The arguments `explain_instance` passes to
`LimeTextExplainer.explain_instance`; the LIME explanation object is
abstracted by this record of the call that produced it. -/
structure ExplainCall where
  content : String
  labels : List Int
  num_features : Nat
deriving DecidableEq

/-- An `explanation.as_list(label=...)` call on an explanation. -/
structure AsListCall where
  call : ExplainCall
  label : Int
deriving DecidableEq

/-- Shallow embedding of `LimeExplainer.explain_instance`: when
`class_or_label_index` is `None` the current index attribute is set to
`1`, otherwise to the supplied index; LIME is then called with that
index as its only label and `max_features` as `num_features`.  Returns
the updated instance state and the recorded LIME call. -/
def explain_instance (st : LimeState) (content : String)
    (class_or_label_index : Option Int) (max_features : Nat := 15) :
    LimeState × ExplainCall :=
  let idx :=
    match class_or_label_index with
    | some i => i
    | none => 1
  let st1 := { st with current_class_or_label_index := idx }
  (st1, { content := content, labels := [idx], num_features := max_features })

/-- Shallow embedding of `LimeExplainer.explain_instance_as_html`: calls
`explain_instance` and renders the explanation as HTML (the rendering is
abstracted; the call it renders is returned). -/
def explain_instance_as_html (st : LimeState) (content : String)
    (class_or_label_index : Option Int) (max_features : Nat := 15) :
    LimeState × ExplainCall :=
  explain_instance st content class_or_label_index max_features

/-- Shallow embedding of `LimeExplainer.explain_instance_as_list`: calls
`explain_instance`, then `explanation.as_list` with the (just updated)
`current_class_or_label_index` attribute as the label. -/
def explain_instance_as_list (st : LimeState) (content : String)
    (class_or_label_index : Option Int) (max_features : Nat := 15) :
    LimeState × AsListCall :=
  let res := explain_instance st content class_or_label_index max_features
  (res.1, { call := res.2, label := res.1.current_class_or_label_index })

/-! ## Concrete objects used to exercise the theorems -/

/-- A concrete probability function for a duck-typed model. -/
def demoFn : List String → Value := fun xs => Value.num xs.length

/-- A concrete well-formed duck-typed model. -/
def demoModel : DuckModel :=
  { predict_proba := some (Attr.pyFn demoFn)
    list_classes := some (Value.list [Value.str "c0", Value.str "c1"]) }

/-- A concrete explainer state, as produced by a successful `limeInit`. -/
def demoLime : LimeState :=
  { model := demoModel
    model_conf := [("preprocess_str", Value.str "digits")]
    class_names := Value.list [Value.str "c0", Value.str "c1"]
    current_class_or_label_index := 0
    explainerClassNames := Value.list [Value.str "c0", Value.str "c1"] }

/-- A concrete preprocessing environment (identity transformation for
every key). -/
def demoEnv : PreprocessEnv := ⟨fun _ ts => ts⟩

/-- A concrete file system where every path exists. -/
def demoFS : FS :=
  { fexists := fun _ => true
    jsonContents := fun _ => [("nb_fit", Value.num 3), ("x_col", Value.list [Value.str "u"])]
    blob := fun _ => Value.str "bytes" }

/-- A concrete regressor instance state. -/
def demoReg : RegressorState :=
  { model_name := "model_dense_regressor_demo"
    model_dir := "models/demo"
    custom_objects := Value.dict []
    nb_fit := Value.num 0
    trained := Value.bool false
    model_type := Value.str "regressor"
    x_col := Value.list [Value.str "a", Value.str "b"]
    y_col := Value.str "y"
    columns_in := Value.list []
    mandatory_columns := Value.list []
    level_save := Value.str "HIGH"
    batch_size := Value.num 64
    epochs := Value.num 99
    validation_split := Value.num (1 / 5)
    patience := Value.num 5
    keras_params := Value.dict [("learning_rate", Value.num (1 / 100))]
    model := ModelObj.notLoaded
    preprocess_pipeline := none }

/-- A second regressor instance differing from `demoReg` only in fields
irrelevant to the emitted topology. -/
def demoReg2 : RegressorState :=
  { demoReg with
    model_name := "other_name"
    y_col := Value.str "z"
    epochs := Value.num 7 }

/-! ## Theorems for the LIME explainer claims -/

/-- C2: `LimeExplainer.__init__` raises `TypeError` if and only if the
supplied model lacks a callable `predict_proba` attribute or its
`list_classes` attribute is absent or `None`; when neither condition
holds it succeeds and sets `class_names` to the model's
`list_classes`. -/
theorem limeInit_typeError_iff (model : DuckModel) (conf : List (String × Value)) :
    ((∃ msg, limeInit model conf = Except.error (PyError.typeError msg)) ↔
      (∀ f, model.predict_proba ≠ some (Attr.pyFn f)) ∨
        model.list_classes = none ∨ model.list_classes = some Value.null) ∧
    (∀ f v, model.predict_proba = some (Attr.pyFn f) →
      model.list_classes = some v → v ≠ Value.null →
      ∃ st, limeInit model conf = Except.ok st ∧ st.class_names = v) := by
  constructor
  · cases hpp : model.predict_proba with
    | none => simp [limeInit, hpp]
    | some a =>
      cases a with
      | pyVal v => simp [limeInit, hpp]
      | pyFn f =>
        cases hlc : model.list_classes with
        | none => simp [limeInit, hpp, hlc]
        | some v =>
          cases v <;> simp [limeInit, hpp, hlc]
  · intro f v hpp hlc hv
    cases v <;> simp_all [limeInit]

/-- Witness for C2 at a concrete model: `limeInit` succeeds on
`demoModel` and copies its class list into `class_names`. -/
theorem limeInit_typeError_iff_witness :
    demoModel.predict_proba = some (Attr.pyFn demoFn) ∧
    demoModel.list_classes = some (Value.list [Value.str "c0", Value.str "c1"]) ∧
    ∃ st, limeInit demoModel [] = Except.ok st ∧
      st.class_names = Value.list [Value.str "c0", Value.str "c1"] :=
  ⟨rfl, rfl,
    (limeInit_typeError_iff demoModel []).2 demoFn _ rfl rfl (by simp)⟩

/-- C6: `classifier_fn` selects the preprocessing key
`model_conf['preprocess_str']` when present and `'no_preprocess'`
otherwise, preprocesses the input texts with the looked-up preprocessor,
and returns the model's `predict_proba` on the preprocessed texts. -/
theorem classifier_fn_spec (env : PreprocessEnv) (st : LimeState)
    (texts : List String) (f : List String → Value)
    (hpp : st.model.predict_proba = some (Attr.pyFn f)) :
    (∀ v, st.model_conf.lookup "preprocess_str" = some v →
      classifier_fn env st texts = some (f (env.get_preprocessor v texts))) ∧
    (st.model_conf.lookup "preprocess_str" = none →
      classifier_fn env st texts =
        some (f (env.get_preprocessor (Value.str "no_preprocess") texts))) := by
  constructor
  · intro v hv
    simp [classifier_fn, hv, hpp]
  · intro hv
    simp [classifier_fn, hv, hpp]

/-- Witness for C6 at a concrete state: the configured key
`'digits'` is used and the probabilities are those of `demoFn` on the
preprocessed texts. -/
theorem classifier_fn_spec_witness :
    demoLime.model.predict_proba = some (Attr.pyFn demoFn) ∧
    List.lookup "preprocess_str" demoLime.model_conf = some (Value.str "digits") ∧
    classifier_fn demoEnv demoLime ["ab", "cd"] =
      some (demoFn (demoEnv.get_preprocessor (Value.str "digits") ["ab", "cd"])) :=
  ⟨rfl, rfl,
    (classifier_fn_spec demoEnv demoLime ["ab", "cd"] demoFn rfl).1
      (Value.str "digits") rfl⟩

/-- C10: with `class_or_label_index = None`, `explain_instance` (and so
`explain_instance_as_html` and `explain_instance_as_list`) computes the
explanation for class/label index `1` — whatever index the state held
before — and `explain_instance_as_list` passes that same index as the
`as_list` label. -/
theorem explain_default_index_is_one (st : LimeState) (content : String)
    (max_features : Nat) :
    (explain_instance st content none max_features).2.labels = [1] ∧
    (explain_instance st content none max_features).1.current_class_or_label_index = 1 ∧
    (explain_instance_as_html st content none max_features).2.labels = [1] ∧
    (explain_instance_as_list st content none max_features).2.label = 1 ∧
    (explain_instance_as_list st content none max_features).2.call.labels = [1] :=
  ⟨rfl, rfl, rfl, rfl, rfl⟩

/-! ## Theorems for the regressor reload claims -/

/-- C1: `reload_from_standalone` raises `ValueError` exactly when one of
the three path arguments is `None`, raises `FileNotFoundError` exactly
when all three are supplied but one names no existing file, performs no
file operation before these checks pass (so every raise happens before
any file is opened or loaded), and raises nothing when the arguments are
supplied and the files exist. -/
theorem reload_validation_spec (self : RegressorState) (fs : FS)
    (cp hp pp : Option String) :
    ((∃ msg, (reload_from_standalone self fs cp hp pp).error =
        some (PyError.valueError msg)) ↔
      cp = none ∨ hp = none ∨ pp = none) ∧
    ((∃ msg, (reload_from_standalone self fs cp hp pp).error =
        some (PyError.fileNotFoundError msg)) ↔
      ∃ c h p, cp = some c ∧ hp = some h ∧ pp = some p ∧
        (fs.fexists c = false ∨ fs.fexists h = false ∨ fs.fexists p = false)) ∧
    (∀ e, (reload_from_standalone self fs cp hp pp).error = some e →
      (reload_from_standalone self fs cp hp pp).ops = []) ∧
    (∀ c h p, cp = some c → hp = some h → pp = some p →
      fs.fexists c = true → fs.fexists h = true → fs.fexists p = true →
      (reload_from_standalone self fs cp hp pp).error = none) := by
  rcases cp with _ | c
  · simp [reload_from_standalone]
  rcases hp with _ | h
  · simp [reload_from_standalone]
  rcases pp with _ | p
  · simp [reload_from_standalone]
  cases hc : fs.fexists c <;> cases hh : fs.fexists h <;> cases hp2 : fs.fexists p <;>
    simp [reload_from_standalone, hc, hh, hp2]

/-- Witness for C1 at concrete inputs: with all three paths supplied and
existing, no exception is raised. -/
theorem reload_validation_spec_witness :
    demoFS.fexists "conf.json" = true ∧ demoFS.fexists "w.hdf5" = true ∧
    demoFS.fexists "p.pkl" = true ∧
    (reload_from_standalone demoReg demoFS (some "conf.json") (some "w.hdf5")
        (some "p.pkl")).error = none :=
  ⟨rfl, rfl, rfl,
    (reload_validation_spec demoReg demoFS (some "conf.json") (some "w.hdf5")
        (some "p.pkl")).2.2.2 "conf.json" "w.hdf5" "p.pkl" rfl rfl rfl rfl rfl rfl⟩

/-- C8: when `reload_from_standalone` raises during validation, the
instance state is exactly the pre-call state and no file operation (in
particular no file creation in `model_dir`) has been performed. -/
theorem reload_error_frame (self : RegressorState) (fs : FS)
    (cp hp pp : Option String) (e : PyError)
    (herr : (reload_from_standalone self fs cp hp pp).error = some e) :
    (reload_from_standalone self fs cp hp pp).state = self ∧
    (reload_from_standalone self fs cp hp pp).ops = [] := by
  rcases cp with _ | c
  · simp [reload_from_standalone]
  rcases hp with _ | h
  · simp [reload_from_standalone]
  rcases pp with _ | p
  · simp [reload_from_standalone]
  cases hc : fs.fexists c <;> cases hh : fs.fexists h <;> cases hp2 : fs.fexists p <;>
    simp_all [reload_from_standalone]

/-- Witness for C8 at a concrete input: with a `None` configuration path
the call raises and leaves the state and the disk untouched. -/
theorem reload_error_frame_witness :
    (reload_from_standalone demoReg demoFS none (some "w.hdf5") (some "p.pkl")).error =
      some (PyError.valueError "The argument configuration_path cannot be None") ∧
    (reload_from_standalone demoReg demoFS none (some "w.hdf5") (some "p.pkl")).state =
      demoReg ∧
    (reload_from_standalone demoReg demoFS none (some "w.hdf5") (some "p.pkl")).ops = [] :=
  ⟨rfl,
    (reload_error_frame demoReg demoFS none (some "w.hdf5") (some "p.pkl")
      (PyError.valueError "The argument configuration_path cannot be None") rfl).1,
    (reload_error_frame demoReg demoFS none (some "w.hdf5") (some "p.pkl")
      (PyError.valueError "The argument configuration_path cannot be None") rfl).2⟩

/-- C9: `reload_from_standalone` never modifies `model_name` or
`model_dir`, whatever the arguments, the file system, and in particular
whatever keys (including `model_name` and `model_dir`) the loaded
configuration file contains. -/
theorem reload_preserves_name_and_dir (self : RegressorState) (fs : FS)
    (cp hp pp : Option String) :
    (reload_from_standalone self fs cp hp pp).state.model_name = self.model_name ∧
    (reload_from_standalone self fs cp hp pp).state.model_dir = self.model_dir := by
  rcases cp with _ | c
  · simp [reload_from_standalone]
  rcases hp with _ | h
  · simp [reload_from_standalone]
  rcases pp with _ | p
  · simp [reload_from_standalone]
  cases hc : fs.fexists c <;> cases hh : fs.fexists h <;> cases hp2 : fs.fexists p <;>
    simp [reload_from_standalone, applyConfigs, hc, hh, hp2]

/-- C7: a successful `reload_from_standalone` loads the Keras model from
`hdf5_path` (with the instance's `custom_objects`), copies the hdf5 file
to `model_dir/best.hdf5`, and unpickles `preprocess_pipeline` from
`preprocess_pipeline_path`, the trace showing these operations in that
order (after the configuration read). -/
theorem reload_success_spec (self : RegressorState) (fs : FS) (c h p : String)
    (hc : fs.fexists c = true) (hh : fs.fexists h = true)
    (hp : fs.fexists p = true) :
    (reload_from_standalone self fs (some c) (some h) (some p)).error = none ∧
    (reload_from_standalone self fs (some c) (some h) (some p)).state.model =
      ModelObj.loadedKeras (fs.blob h) self.custom_objects ∧
    (reload_from_standalone self fs (some c) (some h) (some p)).state.preprocess_pipeline =
      some (fs.blob p) ∧
    (reload_from_standalone self fs (some c) (some h) (some p)).ops =
      [FileOp.openRead c, FileOp.loadModelKeras h,
       FileOp.copyFile h (pathJoin self.model_dir "best.hdf5"),
       FileOp.openRead p] := by
  simp [reload_from_standalone, applyConfigs, hc, hh, hp]

/-- Witness for C7 at concrete inputs. -/
theorem reload_success_spec_witness :
    demoFS.fexists "c.json" = true ∧ demoFS.fexists "w.hdf5" = true ∧
    demoFS.fexists "p.pkl" = true ∧
    (reload_from_standalone demoReg demoFS (some "c.json") (some "w.hdf5")
        (some "p.pkl")).error = none ∧
    (reload_from_standalone demoReg demoFS (some "c.json") (some "w.hdf5")
        (some "p.pkl")).state.model =
      ModelObj.loadedKeras (demoFS.blob "w.hdf5") demoReg.custom_objects ∧
    (reload_from_standalone demoReg demoFS (some "c.json") (some "w.hdf5")
        (some "p.pkl")).state.preprocess_pipeline = some (demoFS.blob "p.pkl") ∧
    (reload_from_standalone demoReg demoFS (some "c.json") (some "w.hdf5")
        (some "p.pkl")).ops =
      [FileOp.openRead "c.json", FileOp.loadModelKeras "w.hdf5",
       FileOp.copyFile "w.hdf5" (pathJoin demoReg.model_dir "best.hdf5"),
       FileOp.openRead "p.pkl"] := by
  have h := reload_success_spec demoReg demoFS "c.json" "w.hdf5" "p.pkl" rfl rfl rfl
  exact ⟨rfl, rfl, rfl, h.1, h.2.1, h.2.2.1, h.2.2.2⟩

/-- The instance state after a successful `reload_from_standalone` with
all three paths supplied. -/
def reloadedState (self : RegressorState) (fs : FS) (c h p : String) :
    RegressorState :=
  (reload_from_standalone self fs (some c) (some h) (some p)).state

/-- C3: for the configuration mapping `reload_from_standalone` loads and
each attribute it handles, a key present in the file overrides the
instance value with the file value, and an absent key leaves the coded
default (`1` for `nb_fit`, `True` for `trained`, the pre-call instance
value for the eleven looped attributes). -/
theorem reload_config_override (self : RegressorState) (fs : FS) (c h p : String)
    (hc : fs.fexists c = true) (hh : fs.fexists h = true)
    (hp : fs.fexists p = true) :
    ((∀ v, (fs.jsonContents c).lookup "nb_fit" = some v →
        (reloadedState self fs c h p).nb_fit = v) ∧
      ((fs.jsonContents c).lookup "nb_fit" = none →
        (reloadedState self fs c h p).nb_fit = Value.num 1)) ∧
    ((∀ v, (fs.jsonContents c).lookup "trained" = some v →
        (reloadedState self fs c h p).trained = v) ∧
      ((fs.jsonContents c).lookup "trained" = none →
        (reloadedState self fs c h p).trained = Value.bool true)) ∧
    ((∀ v, (fs.jsonContents c).lookup "model_type" = some v →
        (reloadedState self fs c h p).model_type = v) ∧
      ((fs.jsonContents c).lookup "model_type" = none →
        (reloadedState self fs c h p).model_type = self.model_type)) ∧
    ((∀ v, (fs.jsonContents c).lookup "x_col" = some v →
        (reloadedState self fs c h p).x_col = v) ∧
      ((fs.jsonContents c).lookup "x_col" = none →
        (reloadedState self fs c h p).x_col = self.x_col)) ∧
    ((∀ v, (fs.jsonContents c).lookup "y_col" = some v →
        (reloadedState self fs c h p).y_col = v) ∧
      ((fs.jsonContents c).lookup "y_col" = none →
        (reloadedState self fs c h p).y_col = self.y_col)) ∧
    ((∀ v, (fs.jsonContents c).lookup "columns_in" = some v →
        (reloadedState self fs c h p).columns_in = v) ∧
      ((fs.jsonContents c).lookup "columns_in" = none →
        (reloadedState self fs c h p).columns_in = self.columns_in)) ∧
    ((∀ v, (fs.jsonContents c).lookup "mandatory_columns" = some v →
        (reloadedState self fs c h p).mandatory_columns = v) ∧
      ((fs.jsonContents c).lookup "mandatory_columns" = none →
        (reloadedState self fs c h p).mandatory_columns = self.mandatory_columns)) ∧
    ((∀ v, (fs.jsonContents c).lookup "level_save" = some v →
        (reloadedState self fs c h p).level_save = v) ∧
      ((fs.jsonContents c).lookup "level_save" = none →
        (reloadedState self fs c h p).level_save = self.level_save)) ∧
    ((∀ v, (fs.jsonContents c).lookup "batch_size" = some v →
        (reloadedState self fs c h p).batch_size = v) ∧
      ((fs.jsonContents c).lookup "batch_size" = none →
        (reloadedState self fs c h p).batch_size = self.batch_size)) ∧
    ((∀ v, (fs.jsonContents c).lookup "epochs" = some v →
        (reloadedState self fs c h p).epochs = v) ∧
      ((fs.jsonContents c).lookup "epochs" = none →
        (reloadedState self fs c h p).epochs = self.epochs)) ∧
    ((∀ v, (fs.jsonContents c).lookup "validation_split" = some v →
        (reloadedState self fs c h p).validation_split = v) ∧
      ((fs.jsonContents c).lookup "validation_split" = none →
        (reloadedState self fs c h p).validation_split = self.validation_split)) ∧
    ((∀ v, (fs.jsonContents c).lookup "patience" = some v →
        (reloadedState self fs c h p).patience = v) ∧
      ((fs.jsonContents c).lookup "patience" = none →
        (reloadedState self fs c h p).patience = self.patience)) ∧
    ((∀ v, (fs.jsonContents c).lookup "keras_params" = some v →
        (reloadedState self fs c h p).keras_params = v) ∧
      ((fs.jsonContents c).lookup "keras_params" = none →
        (reloadedState self fs c h p).keras_params = self.keras_params)) := by
  refine ⟨⟨?_, ?_⟩, ⟨?_, ?_⟩, ⟨?_, ?_⟩, ⟨?_, ?_⟩, ⟨?_, ?_⟩, ⟨?_, ?_⟩, ⟨?_, ?_⟩,
    ⟨?_, ?_⟩, ⟨?_, ?_⟩, ⟨?_, ?_⟩, ⟨?_, ?_⟩, ⟨?_, ?_⟩, ⟨?_, ?_⟩⟩ <;>
  · intros
    simp [reloadedState, reload_from_standalone, applyConfigs, cfgGet, hc, hh, hp, *]

/-- Witness for C3 at concrete inputs: in `demoFS`'s configuration file
`nb_fit` is present (and overrides the instance's `0` with `3`) while
`trained` is absent (and gets its default `True`). -/
theorem reload_config_override_witness :
    demoFS.fexists "c.json" = true ∧
    (demoFS.jsonContents "c.json").lookup "nb_fit" = some (Value.num 3) ∧
    (demoFS.jsonContents "c.json").lookup "trained" = none ∧
    (reloadedState demoReg demoFS "c.json" "w.hdf5" "p.pkl").nb_fit = Value.num 3 ∧
    (reloadedState demoReg demoFS "c.json" "w.hdf5" "p.pkl").trained = Value.bool true :=
  ⟨rfl, rfl, rfl,
    (reload_config_override demoReg demoFS "c.json" "w.hdf5" "p.pkl"
        rfl rfl rfl).1.1 (Value.num 3) rfl,
    (reload_config_override demoReg demoFS "c.json" "w.hdf5" "p.pkl"
        rfl rfl rfl).2.1.2 rfl⟩

/-! ## Theorems for the network topology claims -/

/-- The topology C4 describes, as a `NetworkSpec`: input of the given
dimension, two hidden blocks of `Dense(64, he_uniform)`,
`BatchNormalization(momentum=0.9)`, `ELU(alpha=1.0)`, `Dropout(0.2)`, a
final `Dense(1, glorot_uniform)`, loss `'mean_squared_error'`, an Adam
optimizer with the given learning rate and decay (the metric names, on
which the claim is silent, are taken from the source). -/
def claimedDenseTopology (input_dim : Nat) (lr decay : Value) : NetworkSpec :=
  { layers :=
      [LayerSpec.input input_dim,
       LayerSpec.dense 64 none "he_uniform",
       LayerSpec.batchNormalization (9 / 10),
       LayerSpec.elu 1,
       LayerSpec.dropout (1 / 5),
       LayerSpec.dense 64 none "he_uniform",
       LayerSpec.batchNormalization (9 / 10),
       LayerSpec.elu 1,
       LayerSpec.dropout (1 / 5),
       LayerSpec.dense 1 none "glorot_uniform"]
    lossName := "mean_squared_error"
    metricNames :=
      ["mean_squared_error", "mean_absolute_error", "root_mean_squared_error"]
    optimizerName := "Adam"
    learning_rate := lr
    decay := decay }

/-- C4: `_get_model` emits exactly the claimed topology: input dimension
`len(x_col)`, the two hidden blocks, the final dense layer, loss
`'mean_squared_error'`, and an Adam optimizer whose learning rate is
`keras_params['learning_rate']` if present else `0.001` and whose decay
is `keras_params['decay']` if present else `0.0`. -/
theorem getModel_topology (self : RegressorState) (cols : List Value)
    (kp : List (String × Value))
    (hx : self.x_col = Value.list cols) (hk : self.keras_params = Value.dict kp) :
    getModel self =
      some (claimedDenseTopology cols.length
        ((kp.lookup "learning_rate").getD (Value.num (1 / 1000)))
        ((kp.lookup "decay").getD (Value.num 0))) := by
  simp [getModel, claimedDenseTopology, hx, hk]

/-- Witness for C4 at a concrete instance: two feature columns, a
configured learning rate of `0.01`, and the default decay. -/
theorem getModel_topology_witness :
    demoReg.x_col = Value.list [Value.str "a", Value.str "b"] ∧
    demoReg.keras_params = Value.dict [("learning_rate", Value.num (1 / 100))] ∧
    getModel demoReg =
      some (claimedDenseTopology 2 (Value.num (1 / 100)) (Value.num 0)) :=
  ⟨rfl, rfl, getModel_topology demoReg _ _ rfl rfl⟩

/-- C5: the emitted network topology (and the summary/png side effects)
is a deterministic function of the model configuration: two instances
agreeing on `x_col`, `keras_params` and `level_save`, with equal
effective logger levels, get identical results from `_get_model`. -/
theorem getModel_deterministic (s1 s2 : RegressorState) (lvl1 lvl2 : Nat)
    (hx : s1.x_col = s2.x_col) (hk : s1.keras_params = s2.keras_params)
    (hs : s1.level_save = s2.level_save) (hl : lvl1 = lvl2) :
    getModel s1 = getModel s2 ∧
    getModelEffects s1 lvl1 = getModelEffects s2 lvl2 := by
  constructor
  · unfold getModel
    rw [hx, hk]
  · unfold getModelEffects
    rw [hs, hl]

/-- Witness for C5 at concrete instances: `demoReg` and `demoReg2`
differ in name, target column and epoch count but agree on the
configuration the topology depends on. -/
theorem getModel_deterministic_witness :
    demoReg.x_col = demoReg2.x_col ∧
    demoReg.keras_params = demoReg2.keras_params ∧
    demoReg.level_save = demoReg2.level_save ∧
    getModel demoReg = getModel demoReg2 ∧
    getModelEffects demoReg 30 = getModelEffects demoReg2 30 :=
  ⟨rfl, rfl, rfl,
    (getModel_deterministic demoReg demoReg2 30 30 rfl rfl rfl rfl).1,
    (getModel_deterministic demoReg demoReg2 30 30 rfl rfl rfl rfl).2⟩

